import Mathlib

/-!
Shallow embedding of `src/diana_api/control.py` (`RobotController`), the
asynchronous task-tracking core of the Diana MCP robot server.

Modelling conventions:
* Python dicts held by reference (`meta`, the `threading.Event`) are modelled
  with explicit heaps inside `CState` (`metaHeap`, `eventHeap`); a task record
  stores indices (`metaRef`, `eventRef`) into those heaps, so Python aliasing
  (shallow copies sharing the meta dict) is represented faithfully.
* Calls into the vendor SDK (`api.initSrv`, `api.stop`, `api.moveJToTarget`,
  `api.getRobotState`, ...) are opaque, per the code (`from . import diana_api`,
  whose real binding is an external ctypes layer): each operation takes the
  SDK call's result as an oracle argument, and every issued SDK command is
  appended to an observable `log`.
* `datetime.utcnow()` timestamps are opaque: each operation that records a
  timestamp takes it as a `now : Nat` argument.
* `uuid.uuid4().hex` is modelled as a fresh-identifier source `uuid_src`
  carried in the state (uuid4's contract: an identifier never handed out
  before), with task ids as `Nat`.
* Motion parameters (joint angles, velocity, acceleration) are opaque to all
  control flow except list lengths; they are modelled as `Int`.
* Robot state values returned by `getRobotState` are integers compared with 0
  (`0` = still moving), as in the monitor loop and the bundled stub binding.
* A raised `RobotError` is an `Except.error` carrying the exact message
  string; operations return the state as mutated up to the raise point.
-/

namespace Diana

/-- Equality of raised-or-returned results is decidable. -/
instance {ε α : Type} [DecidableEq ε] [DecidableEq α] : DecidableEq (Except ε α) :=
  fun a b =>
  match a, b with
  | Except.error e, Except.error f => decidable_of_iff (e = f) (by simp)
  | Except.error _, Except.ok _ => isFalse (by simp)
  | Except.ok _, Except.error _ => isFalse (by simp)
  | Except.ok a, Except.ok b => decidable_of_iff (a = b) (by simp)

/-- Association-list lookup keyed by `Nat`, modelling `dict.get`. -/
def alookup {β : Type} : List (Nat × β) → Nat → Option β
  | [], _ => none
  | (k, v) :: rest, k' => if k = k' then some v else alookup rest k'

/-- In-place update of the entry at a key, modelling mutation of a dict value. -/
def aupdate {β : Type} : List (Nat × β) → Nat → (β → β) → List (Nat × β)
  | [], _, _ => []
  | (a, b) :: rest, k, f =>
    if a = k then (a, f b) :: aupdate rest k f else (a, b) :: aupdate rest k f

/-- Dict assignment `d[k] = v`: replace if present, append if absent. -/
def aset {β : Type} (l : List (Nat × β)) (k : Nat) (v : β) : List (Nat × β) :=
  if (alookup l k).isSome then aupdate l k (fun _ => v) else l ++ [(k, v)]

/-- The mutable `meta` dict attached to a task: the kind-specific payload
written at registration plus the `meta["error"]` detail the monitor may add. -/
structure Meta where
  taskId : Nat
  params : List (List Int)
  velocity : Int
  acceleration : Int
  errorDetail : Option String
deriving DecidableEq, Repr

/-- A registry entry: the dict stored in `self._tasks[task_id]`, with the
shared `meta` dict and `threading.Event` represented as heap references. -/
structure TaskRec where
  task_id : Nat
  type : String
  status : String
  started_at : Nat
  ip : Option String
  metaRef : Nat
  eventRef : Nat
  completed_at : Option Nat
  aborted_at : Option Nat
deriving DecidableEq, Repr, Inhabited

/-- The snapshot `get_task` returns: every key of the record except `event`.
The shallow copy keeps the same `metaRef` (the `meta` dict is shared). -/
structure TaskView where
  task_id : Nat
  type : String
  status : String
  started_at : Nat
  ip : Option String
  metaRef : Nat
  completed_at : Option Nat
  aborted_at : Option Nat
deriving DecidableEq, Repr

/-- Build the `get_task` snapshot of a record: drops only the event. -/
def toView (t : TaskRec) : TaskView :=
  { task_id := t.task_id, type := t.type, status := t.status,
    started_at := t.started_at, ip := t.ip, metaRef := t.metaRef,
    completed_at := t.completed_at, aborted_at := t.aborted_at }

/-- One SDK command issued over the wire, recorded for frame reasoning. -/
inductive Cmd where
  | initSrv (info : List String)
  | destroySrv (ip : String)
  | stop (ip : String)
  | moveJToTarget (joints : List Int) (ip : String)
  | getRobotState (ip : String)
deriving DecidableEq, Repr

/-- Complete `RobotController` state: connection fields, counters, the task
registry, the heaps backing shared `meta` dicts and `threading.Event`s, the
set of spawned monitors, and the log of SDK commands issued so far. -/
structure CState where
  connected : Bool := false
  ip_address : Option String := none
  net_info : Option (List String) := none
  task_counter : Nat := 0
  uuid_src : Nat := 0
  tasks : List (Nat × TaskRec) := []
  metaHeap : List Meta := []
  eventHeap : List Bool := []
  monitors : List Nat := []
  log : List Cmd := []
deriving DecidableEq, Repr

/-- Python`s `_tuple_net_info`: require exactly 6 elements (ip + 5 ports). -/
def tuple_net_info (ni : List String) : Except String (List String) :=
  if ni.length = 6 then Except.ok ni
  else Except.error "net_info must contain 6 elements: ip + 5 ports"

/-- Render an optional ip the way a Python f-string renders it. -/
def ipText : Option String → String
  | some i => i
  | none => "None"

/-- Python`s `connect`: idempotent on the same address, rejects a different
address while connected, otherwise calls `api.initSrv` (oracle `initSrvOk`). -/
def connect (s : CState) (ni : List String) (initSrvOk : Bool) :
    CState × Except String (String × Option String) :=
  match tuple_net_info ni with
  | Except.error e => (s, Except.error e)
  | Except.ok info =>
    if s.connected then
      if some info.headI ≠ s.ip_address then
        (s, Except.error
          ("Already connected to " ++ ipText s.ip_address ++ ", disconnect first."))
      else (s, Except.ok ("already_connected", s.ip_address))
    else
      let s1 := { s with log := s.log ++ [Cmd.initSrv info] }
      if initSrvOk then
        ({ s1 with connected := true, ip_address := some info.headI,
                   net_info := some info },
         Except.ok ("connected", some info.headI))
      else
        (s1, Except.error "initSrv failed, please verify network and controller state.")

/-- Python`s `disconnect`: idempotent; on a live connection calls
`api.destroySrv`, clears the connection fields and resets the task counter,
leaving `_tasks` untouched. -/
def disconnect (s : CState) : CState × Except String String :=
  if s.connected then
    ({ s with log := s.log ++ [Cmd.destroySrv (s.ip_address.getD "")],
              connected := false, ip_address := none, net_info := none,
              task_counter := 0 },
     Except.ok "disconnected")
  else (s, Except.ok "already_disconnected")

/-- Python`s `stop_motion`: requires a connection, issues `api.stop`
(oracle `stopOk`), raises on a falsy result. -/
def stop_motion (s : CState) (stopOk : Bool) : CState × Except String String :=
  if s.connected then
    let s1 := { s with log := s.log ++ [Cmd.stop (s.ip_address.getD "")] }
    if stopOk then (s1, Except.ok "stopped")
    else (s1, Except.error "stop command failed.")
  else (s, Except.error "Robot is not connected.")

/-- Python`s `_next_task_id`: increment and return the counter. -/
def next_task_id (s : CState) : CState × Nat :=
  ({ s with task_counter := s.task_counter + 1 }, s.task_counter + 1)

/-- `uuid.uuid4().hex`, modelled as a never-repeating identifier source. -/
def uuid4hex (s : CState) : CState × Nat :=
  ({ s with uuid_src := s.uuid_src + 1 }, s.uuid_src)

/-- Python`s `_register_task`: store a fresh record in `running` status with a
fresh meta dict and an unset completion event. -/
def register_task (s : CState) (uuid : Nat) (ty : String) (meta : Meta)
    (now : Nat) : CState :=
  let t : TaskRec :=
    { task_id := uuid, type := ty, status := "running", started_at := now,
      ip := s.ip_address, metaRef := s.metaHeap.length,
      eventRef := s.eventHeap.length, completed_at := none, aborted_at := none }
  { s with metaHeap := s.metaHeap ++ [meta],
           eventHeap := s.eventHeap ++ [false],
           tasks := aset s.tasks uuid t }

/-- Python`s `_start_task_monitor`: spawn a daemon monitor thread for the task
(the monitor body itself is `monitor_poll`, one loop iteration per step). -/
def start_task_monitor (s : CState) (uuid : Nat) : CState :=
  { s with monitors := s.monitors ++ [uuid] }

/-- Python`s `move_joint_positions`: requires connection, rejects joint vectors
whose length is not 7 before any SDK call, then issues `api.moveJToTarget`
(oracle `moveOk`), registers the task and starts its monitor. -/
def move_joint_positions (s : CState) (joints : List Int)
    (velocity acceleration : Int) (moveOk : Bool) (now : Nat) :
    CState × Except String (String × Nat × Nat × String) :=
  if s.connected then
    if joints.length = 7 then
      let (s1, task_id) := next_task_id s
      let (s2, task_uuid) := uuid4hex s1
      let s3 := { s2 with
        log := s2.log ++ [Cmd.moveJToTarget joints (s2.ip_address.getD "")] }
      if moveOk then
        let meta : Meta := { taskId := task_id, params := [joints],
                             velocity := velocity, acceleration := acceleration,
                             errorDetail := none }
        let s4 := register_task s3 task_uuid "joint_move" meta now
        let s5 := start_task_monitor s4 task_uuid
        (s5, Except.ok ("moving", task_id, task_uuid, "joint"))
      else (s3, Except.error "moveJToTarget failed.")
    else (s, Except.error "move_joint_positions expects 7 joint values.")
  else (s, Except.error "Robot is not connected.")

/-- The waypoint loop of `execute_joint_sequence`: length-check then issue each
waypoint`s `api.moveJToTarget` in order (oracle `oks i` is waypoint i`s SDK
result); stop at the first failure. -/
def issueWaypoints (s : CState) (path : List (List Int)) (oks : Nat → Bool)
    (idx : Nat) : CState × Except String Unit :=
  match path with
  | [] => (s, Except.ok ())
  | joints :: rest =>
    if joints.length = 7 then
      let s1 := { s with
        log := s.log ++ [Cmd.moveJToTarget joints (s.ip_address.getD "")] }
      if oks idx then issueWaypoints s1 rest oks (idx + 1)
      else (s1, Except.error ("moveJToTarget failed at waypoint #" ++ toString idx ++ "."))
    else (s, Except.error ("Path point #" ++ toString idx ++ " must contain 7 joints."))

/-- Python`s `execute_joint_sequence`: empty path raises before anything else;
waypoints are issued synchronously in order; only after all succeed is the
task registered and its monitor started. -/
def execute_joint_sequence (s : CState) (path : List (List Int))
    (velocity acceleration : Int) (oks : Nat → Bool) (now : Nat) :
    CState × Except String (String × Nat × Nat × Nat) :=
  if s.connected then
    if path.isEmpty then (s, Except.error "Path is empty.")
    else
      let (s1, task_id) := next_task_id s
      let (s2, task_uuid) := uuid4hex s1
      match issueWaypoints s2 path oks 0 with
      | (s3, Except.error e) => (s3, Except.error e)
      | (s3, Except.ok ()) =>
        let meta : Meta := { taskId := task_id, params := path,
                             velocity := velocity, acceleration := acceleration,
                             errorDetail := none }
        let s4 := register_task s3 task_uuid "joint_sequence" meta now
        let s5 := start_task_monitor s4 task_uuid
        (s5, Except.ok ("queued", task_id, task_uuid, path.length))
  else (s, Except.error "Robot is not connected.")

/-- Python`s `get_robot_state`: requires connection, queries the SDK
(oracle `apiState`; `none` models a failed query), raises on failure. -/
def get_robot_state (s : CState) (apiState : Option Int) :
    CState × Except String Int :=
  if s.connected then
    let s1 := { s with log := s.log ++ [Cmd.getRobotState (s.ip_address.getD "")] }
    match apiState with
    | none => (s1, Except.error "getRobotState failed.")
    | some v => (s1, Except.ok v)
  else (s, Except.error "Robot is not connected.")

/-- Write `meta["error"] = msg` through a heap reference. -/
def setMetaError (heap : List Meta) (ref : Nat) (msg : String) : List Meta :=
  match heap.get? ref with
  | none => heap
  | some m => heap.set ref { m with errorDetail := some msg }

/-- Whether the monitor thread returns after this loop iteration. -/
inductive MonitorOutcome where
  | keepPolling
  | finished
deriving DecidableEq, Repr

/-- One iteration of the monitor loop in `_start_task_monitor`: poll
`get_robot_state` (oracle `apiState`); a raised query error marks the task
`error` (unconditionally) with `meta["error"] = "get_robot_state_failed"` and
sets the event; a non-zero state marks a still-`running` task `completed`,
stamps `completed_at` and sets the event; a zero state sleeps and loops.
No error ever escapes the monitor (its result type has no error channel). -/
def monitor_poll (s : CState) (uuid : Nat) (apiState : Option Int) (now : Nat) :
    CState × MonitorOutcome :=
  match get_robot_state s apiState with
  | (s1, Except.error _) =>
    match alookup s1.tasks uuid with
    | none => (s1, MonitorOutcome.finished)
    | some t =>
      ({ s1 with
          tasks := aupdate s1.tasks uuid (fun u => { u with status := "error" }),
          metaHeap := setMetaError s1.metaHeap t.metaRef "get_robot_state_failed",
          eventHeap := s1.eventHeap.set t.eventRef true },
       MonitorOutcome.finished)
  | (s1, Except.ok v) =>
    if v ≠ 0 then
      match alookup s1.tasks uuid with
      | none => (s1, MonitorOutcome.finished)
      | some t =>
        if t.status = "running" then
          ({ s1 with
              tasks := aupdate s1.tasks uuid
                (fun u => { u with status := "completed", completed_at := some now }),
              eventHeap := s1.eventHeap.set t.eventRef true },
           MonitorOutcome.finished)
        else (s1, MonitorOutcome.finished)
    else (s1, MonitorOutcome.keepPolling)

/-- Python`s `get_task`: raise for an unknown id, else return the shallow copy
of the record without the `event` key. -/
def get_task (s : CState) (uuid : Nat) : Except String TaskView :=
  match alookup s.tasks uuid with
  | none => Except.error "Task not found"
  | some t => Except.ok (toView t)

/-- Python`s `wait_task`: look the task up, then `event.wait(timeout)`
(oracle `eventFired`: whether the completion signal fired within the timeout);
raise on timeout, otherwise re-read the task via `get_task`. Never mutates. -/
def wait_task (s : CState) (uuid : Nat) (eventFired : Bool) :
    CState × Except String TaskView :=
  match alookup s.tasks uuid with
  | none => (s, Except.error "Task not found")
  | some _ =>
    if eventFired then (s, get_task s uuid)
    else (s, Except.error "Task wait timeout")

/-- Result of `cancel_task`: the early-return branch hands back the raw
internal record (event reference included); the abort branch hands back the
sanitized `get_task` snapshot. -/
inductive CancelRes where
  | raw (t : TaskRec)
  | snap (v : TaskView)
deriving DecidableEq, Repr

/-- The part of `cancel_task` after the lock is dropped: call `stop_motion`
(a failure is re-raised as "Cancel failed" and nothing is marked), then mark
the task `aborted`, stamp `aborted_at`, set the event, and return the
`get_task` snapshot. Note: the status is not re-checked here. -/
def cancel_finish (s : CState) (uuid : Nat) (stopOk : Bool) (now : Nat) :
    CState × Except String CancelRes :=
  match stop_motion s stopOk with
  | (s1, Except.error _) => (s1, Except.error "Cancel failed")
  | (s1, Except.ok _) =>
    let s2 :=
      match alookup s1.tasks uuid with
      | none => s1
      | some t =>
        { s1 with
            tasks := aupdate s1.tasks uuid
              (fun u => { u with status := "aborted", aborted_at := some now }),
            eventHeap := s1.eventHeap.set t.eventRef true }
    match get_task s2 uuid with
    | Except.error e => (s2, Except.error e)
    | Except.ok v => (s2, Except.ok (CancelRes.snap v))

/-- Python`s `cancel_task`: unknown id raises; a task that is neither
`running` nor `queued` is returned as the raw internal record; otherwise
`cancel_finish` runs (outside the lock held for the check). -/
def cancel_task (s : CState) (uuid : Nat) (stopOk : Bool) (now : Nat) :
    CState × Except String CancelRes :=
  match alookup s.tasks uuid with
  | none => (s, Except.error "Task not found")
  | some t =>
    if t.status ≠ "running" ∧ t.status ≠ "queued" then
      (s, Except.ok (CancelRes.raw t))
    else cancel_finish s uuid stopOk now

/-- Status of the registry entry at an id, if any. -/
def statusOf (s : CState) (uuid : Nat) : Option String :=
  (alookup s.tasks uuid).map TaskRec.status

/-- What a caller holding a `get_task` snapshot observes as the task`s meta
dict in a given state: the snapshot aliases the registry entry`s meta. -/
def viewMeta (s : CState) (v : TaskView) : Option Meta :=
  s.metaHeap.get? v.metaRef

/-- Current value of a completion event flag (unset for a dangling ref). -/
def eventFlag (s : CState) (ref : Nat) : Bool :=
  s.eventHeap.getD ref false

/-- Freshness invariant of the uuid source: every registered id was handed
out by it, hence is below the next value. Holds in every reachable state. -/
def TasksFresh (s : CState) : Prop :=
  ∀ k, (alookup s.tasks k).isSome → k < s.uuid_src

/-- A status is terminal when it is one of completed, aborted, error. -/
def isTerminal (st : String) : Prop :=
  st = "completed" ∨ st = "aborted" ∨ st = "error"

/-! Concrete executions used by counterexample / failing-input theorems. -/

/-- A controller connected to 10.0.0.1 (fresh state, `connect` succeeded). -/
def sConn : CState :=
  (connect {} ["10.0.0.1", "0", "0", "0", "0", "0"] true).1

/-- State after `move_joint_positions([0]*7, ...)` succeeded on `sConn`:
task 0 is registered `running` with its monitor started. -/
def sMove : CState :=
  (move_joint_positions sConn [0, 0, 0, 0, 0, 0, 0] 1 1 true 100).1

/-- State after `cancel_task` of task 0 on `sMove` (stop succeeded):
task 0 is terminal (`aborted`), but its monitor thread is still polling. -/
def sAbort : CState :=
  (cancel_task sMove 0 true 200).1

/-- State after the still-running monitor's next poll on `sAbort` hits a
failed `get_robot_state` query. -/
def sOverwrite : CState :=
  (monitor_poll sAbort 0 none 300).1

/-- State after the monitor's poll on `sMove` hits a failed state query:
task 0 is `error` and `meta["error"]` was written through the shared dict. -/
def sMetaErr : CState :=
  (monitor_poll sMove 0 none 300).1

/-- The registry record of task 0 in `sMove`. -/
def tMove : TaskRec :=
  { task_id := 0, type := "joint_move", status := "running", started_at := 100,
    ip := some "10.0.0.1", metaRef := 0, eventRef := 0,
    completed_at := none, aborted_at := none }

/-- The registry record of task 0 in `sAbort`. -/
def tAbort : TaskRec :=
  { tMove with status := "aborted", aborted_at := some 200 }

/-! Generic lemmas about the dict and heap models. -/

theorem alookup_aupdate_self {β : Type} (l : List (Nat × β)) (k : Nat) (f : β → β) :
    alookup (aupdate l k f) k = (alookup l k).map f := by
  induction l with
  | nil => rfl
  | cons p rest ih =>
    obtain ⟨a, b⟩ := p
    by_cases h : a = k
    · subst h
      simp [aupdate, alookup]
    · simp [aupdate, alookup, h, ih]

theorem alookup_append_of_none {β : Type} (l : List (Nat × β)) (k : Nat) (v : β)
    (h : alookup l k = none) : alookup (l ++ [(k, v)]) k = some v := by
  induction l with
  | nil => simp [alookup]
  | cons p rest ih =>
    obtain ⟨a, b⟩ := p
    by_cases hak : a = k
    · simp [alookup, hak] at h
    · simp [alookup, hak] at h ⊢
      exact ih h

theorem get?_set_self {β : Type} (l : List β) (i : Nat) (v : β) (h : i < l.length) :
    (l.set i v).get? i = some v := by
  induction l generalizing i with
  | nil => simp at h
  | cons x xs ih =>
    cases i with
    | zero => rfl
    | succ n =>
      have h' : n < xs.length := by simpa using h
      simpa [List.set] using ih n h'

theorem getElem?_set_self {β : Type} (l : List β) (i : Nat) (v : β)
    (h : i < l.length) : (l.set i v)[i]? = some v := by
  rw [← List.get?_eq_getElem?]
  exact get?_set_self l i v h

theorem getD_set_self {β : Type} (l : List β) (i : Nat) (v d : β) (h : i < l.length) :
    (l.set i v).getD i d = v := by
  simp [List.getD, getElem?_set_self l i v h]

theorem setMetaError_read (heap : List Meta) (ref : Nat) (msg : String)
    (h : ref < heap.length) :
    (setMetaError heap ref msg)[ref]?
      = some { heap.get ⟨ref, h⟩ with errorDetail := some msg } := by
  have hg : heap.get? ref = some (heap.get ⟨ref, h⟩) := List.get?_eq_get h
  have hs := getElem?_set_self heap ref
      { heap.get ⟨ref, h⟩ with errorDetail := some msg } h
  simp only [setMetaError, hg, hs]

theorem TasksFresh.lookup_none {s : CState} (h : TasksFresh s) :
    alookup s.tasks s.uuid_src = none := by
  cases hx : alookup s.tasks s.uuid_src with
  | none => rfl
  | some t => exact absurd (h s.uuid_src (by simp [hx])) (lt_irrefl _)

/-! Claim theorems. -/

/-- C1: the claim that every transition attempt on an already-terminal task is
a no-op fails on the code. Failing execution: task 0 is cancelled (terminal
`aborted`, first terminal write) while its monitor is still polling; the
monitor's next `get_robot_state` query fails and its error path overwrites the
status with `error` unconditionally. A second unguarded writer is shown too:
after the monitor has completed a task, the post-`stop_motion` half of
`cancel_task` (which never re-checks the status) overwrites `completed` with
`aborted`. -/
theorem monitor_error_path_overwrites_terminal_status :
    statusOf sAbort 0 = some "aborted" ∧
    isTerminal "aborted" ∧
    statusOf sOverwrite 0 = some "error" ∧
    statusOf (monitor_poll sMove 0 (some 1) 150).1 0 = some "completed" ∧
    statusOf (cancel_finish (monitor_poll sMove 0 (some 1) 150).1 0 true 200).1 0
      = some "aborted" :=
  ⟨by decide, Or.inr (Or.inl rfl), by decide, by decide, by decide⟩

/-- C4: `wait_task` raises `TaskWaitTimeout` exactly when the completion
signal has not fired within the timeout, never mutates any state, and when the
signal has fired (the task reached a terminal status, `error` included) it
returns the `get_task` snapshot as a normal result. -/
theorem wait_task_spec (s : CState) (uuid : Nat) (t : TaskRec) (fired : Bool)
    (ht : alookup s.tasks uuid = some t) :
    (wait_task s uuid fired).1 = s ∧
    ((wait_task s uuid fired).2 = Except.error "Task wait timeout" ↔ fired = false) ∧
    (fired = true → (wait_task s uuid fired).2 = Except.ok (toView t)) := by
  cases fired <;> simp [wait_task, get_task, ht]

/-- C4 witness: on the concrete running task 0 of `sMove`, an unfired signal
raises the timeout error and a fired signal returns the snapshot. -/
theorem wait_task_spec_witness :
    (wait_task sMove 0 false).2 = Except.error "Task wait timeout" ∧
    (wait_task sMove 0 true).2 = Except.ok (toView tMove) :=
  ⟨((wait_task_spec sMove 0 tMove false (by decide)).2.1).mpr rfl,
   (wait_task_spec sMove 0 tMove true (by decide)).2.2 rfl⟩

/-- C7: while connected, `connect` with the same address is an idempotent
no-op answering `already_connected`, and `connect` with a different address
raises and changes nothing (in both cases no SDK call is issued, for either
value of the SDK oracle). -/
theorem connect_when_connected_spec (s : CState) (ni : List String)
    (hc : s.connected = true) (hlen : ni.length = 6) :
    (some ni.headI = s.ip_address →
      ∀ ok, connect s ni ok = (s, Except.ok ("already_connected", s.ip_address))) ∧
    (some ni.headI ≠ s.ip_address →
      ∀ ok, connect s ni ok =
        (s, Except.error
          ("Already connected to " ++ ipText s.ip_address ++ ", disconnect first."))) := by
  constructor
  · intro h ok
    simp [connect, tuple_net_info, hlen, hc, h]
  · intro h ok
    simp [connect, tuple_net_info, hlen, hc, h]

/-- C7 witness: on the connected state `sConn` (address 10.0.0.1), a matching
reconnect is idempotent and a mismatched one raises, both leaving the state
untouched. -/
theorem connect_when_connected_spec_witness :
    connect sConn ["10.0.0.1", "1", "2", "3", "4", "5"] true
      = (sConn, Except.ok ("already_connected", sConn.ip_address)) ∧
    connect sConn ["10.9.9.9", "0", "0", "0", "0", "0"] false
      = (sConn, Except.error
          ("Already connected to " ++ ipText sConn.ip_address ++ ", disconnect first.")) :=
  ⟨(connect_when_connected_spec sConn ["10.0.0.1", "1", "2", "3", "4", "5"]
      (by decide) (by decide)).1 (by decide) true,
   (connect_when_connected_spec sConn ["10.9.9.9", "0", "0", "0", "0", "0"]
      (by decide) (by decide)).2 (by decide) false⟩

/-- C8: `disconnect` on a disconnected controller is an identity returning
`already_disconnected`; on a live connection it resets the task counter to
zero and clears the connection fields while leaving every registry entry
unchanged and still addressable through `get_task`. -/
theorem disconnect_spec (s : CState) :
    (s.connected = false → disconnect s = (s, Except.ok "already_disconnected")) ∧
    (s.connected = true →
      (disconnect s).2 = Except.ok "disconnected" ∧
      (disconnect s).1.task_counter = 0 ∧
      (disconnect s).1.connected = false ∧
      (disconnect s).1.ip_address = none ∧
      (disconnect s).1.net_info = none ∧
      (disconnect s).1.tasks = s.tasks ∧
      ∀ id, get_task (disconnect s).1 id = get_task s id) := by
  constructor
  · intro h
    simp [disconnect, h]
  · intro h
    simp [disconnect, h, get_task]

/-- C8 witness: a fresh controller is already disconnected; disconnecting
`sMove` zeroes the counter and keeps task 0 addressable. -/
theorem disconnect_spec_witness :
    disconnect ({} : CState) = ({}, Except.ok "already_disconnected") ∧
    (disconnect sMove).2 = Except.ok "disconnected" ∧
    (disconnect sMove).1.task_counter = 0 ∧
    get_task (disconnect sMove).1 0 = get_task sMove 0 :=
  ⟨(disconnect_spec {}).1 rfl,
   ((disconnect_spec sMove).2 (by decide)).1,
   ((disconnect_spec sMove).2 (by decide)).2.1,
   ((disconnect_spec sMove).2 (by decide)).2.2.2.2.2.2 0⟩

/-- C9 counterexample: `get_task`'s shallow copy shares the task's `meta` dict,
so the claim that no subsequent internal mutation alters a returned snapshot
is false: the snapshot of the running task 0 observes `meta` without an error
detail, yet after the monitor's internal error write the same snapshot
observes `meta["error"] = "get_robot_state_failed"`. -/
theorem get_task_snapshot_not_immutable :
    get_task sMove 0 = Except.ok (toView tMove) ∧
    (viewMeta sMove (toView tMove)).map Meta.errorDetail = some none ∧
    (viewMeta sMetaErr (toView tMove)).map Meta.errorDetail
      = some (some "get_robot_state_failed") :=
  ⟨by decide, by decide, by decide⟩

/-- C9 (amended): `get_task` raises `TaskNotFound` for an absent id; for a
present id it returns the record's shallow snapshot, which exposes no
completion event (the view is insensitive to the event reference) but shares
the `meta` dict by reference, so later internal writes to `meta` remain
visible through a previously returned snapshot. -/
theorem get_task_amended_spec (s : CState) (uuid : Nat) :
    (alookup s.tasks uuid = none → get_task s uuid = Except.error "Task not found") ∧
    (∀ t, alookup s.tasks uuid = some t →
      get_task s uuid = Except.ok (toView t) ∧
      (∀ e, toView { t with eventRef := e } = toView t) ∧
      (toView t).metaRef = t.metaRef) := by
  constructor
  · intro h
    simp [get_task, h]
  · intro t ht
    exact ⟨by simp [get_task, ht], fun e => rfl, rfl⟩

/-- C9 amended witness: in `sMove`, id 1 is absent and raises; id 0 returns
the snapshot of its record. -/
theorem get_task_amended_spec_witness :
    get_task sMove 1 = Except.error "Task not found" ∧
    get_task sMove 0 = Except.ok (toView tMove) :=
  ⟨(get_task_amended_spec sMove 1).1 (by decide),
   ((get_task_amended_spec sMove 0).2 tMove (by decide)).1⟩

/-- C10: `cancel_task` on a task that is neither running nor queued returns
without touching any state, and hands back the raw internal record (event
reference included) rather than the sanitized `get_task` snapshot. -/
theorem cancel_task_terminal_returns_raw (s : CState) (uuid : Nat) (t : TaskRec)
    (stopOk : Bool) (now : Nat)
    (ht : alookup s.tasks uuid = some t)
    (h1 : t.status ≠ "running") (h2 : t.status ≠ "queued") :
    cancel_task s uuid stopOk now = (s, Except.ok (CancelRes.raw t)) ∧
    (Except.ok (CancelRes.raw t) : Except String CancelRes)
      ≠ Except.ok (CancelRes.snap (toView t)) := by
  constructor
  · simp [cancel_task, ht, h1, h2]
  · simp

/-- C10 witness: cancelling the already-aborted task 0 of `sAbort` returns
its raw record unchanged. -/
theorem cancel_task_terminal_returns_raw_witness :
    cancel_task sAbort 0 true 999 = (sAbort, Except.ok (CancelRes.raw tAbort)) :=
  (cancel_task_terminal_returns_raw sAbort 0 tAbort true 999
    (by decide) (by decide) (by decide)).1

/-- C3: on a running task, `cancel_task` issues the stop command first and
then marks the task `aborted`, stamps `aborted_at`, sets its completion event
and returns the aborted snapshot; when the stop command fails it raises
"Cancel failed" with the stop command issued but the task registry untouched
(the task stays `running`). -/
theorem cancel_task_running_spec (s : CState) (uuid : Nat) (t : TaskRec)
    (now : Nat)
    (hc : s.connected = true)
    (ht : alookup s.tasks uuid = some t)
    (hrun : t.status = "running")
    (hev : t.eventRef < s.eventHeap.length) :
    ((cancel_task s uuid true now).1.log
        = s.log ++ [Cmd.stop (s.ip_address.getD "")] ∧
      statusOf (cancel_task s uuid true now).1 uuid = some "aborted" ∧
      (alookup (cancel_task s uuid true now).1.tasks uuid).map TaskRec.aborted_at
        = some (some now) ∧
      eventFlag (cancel_task s uuid true now).1 t.eventRef = true ∧
      (cancel_task s uuid true now).2
        = Except.ok (CancelRes.snap
            (toView { t with status := "aborted", aborted_at := some now }))) ∧
    ((cancel_task s uuid false now).2 = Except.error "Cancel failed" ∧
      (cancel_task s uuid false now).1.tasks = s.tasks ∧
      (cancel_task s uuid false now).1.log
        = s.log ++ [Cmd.stop (s.ip_address.getD "")] ∧
      statusOf (cancel_task s uuid false now).1 uuid = some "running") := by
  have hne : ¬(t.status ≠ "running" ∧ t.status ≠ "queued") := by
    simp [hrun]
  constructor
  · simp [cancel_task, ht, hne, cancel_finish, stop_motion, hc, get_task,
      alookup_aupdate_self, statusOf, eventFlag, toView,
      getElem?_set_self _ _ _ hev]
  · simp [cancel_task, ht, hne, cancel_finish, stop_motion, hc, statusOf, hrun]

/-- C2: for a running task, a monitor poll that sees a non-zero robot state
marks the task `completed`, stamps `completed_at` (exactly once: any further
non-zero poll leaves the registry untouched), sets the completion event and
terminates the monitor; a poll whose state query raises instead marks the
task `error`, records the failure detail in the task's meta dict, sets the
event and terminates — and by construction of `monitor_poll`'s result type
the query error is swallowed, never propagated to a caller. -/
theorem monitor_poll_running_spec (s : CState) (uuid : Nat) (t : TaskRec)
    (now : Nat)
    (hc : s.connected = true)
    (ht : alookup s.tasks uuid = some t)
    (hrun : t.status = "running")
    (hev : t.eventRef < s.eventHeap.length)
    (hm : t.metaRef < s.metaHeap.length) :
    (∀ v : Int, v ≠ 0 →
      statusOf (monitor_poll s uuid (some v) now).1 uuid = some "completed" ∧
      (alookup (monitor_poll s uuid (some v) now).1.tasks uuid).map
          TaskRec.completed_at = some (some now) ∧
      eventFlag (monitor_poll s uuid (some v) now).1 t.eventRef = true ∧
      (monitor_poll s uuid (some v) now).2 = MonitorOutcome.finished ∧
      (∀ (w : Int) (later : Nat), w ≠ 0 →
        (monitor_poll (monitor_poll s uuid (some v) now).1 uuid (some w) later).1.tasks
          = (monitor_poll s uuid (some v) now).1.tasks ∧
        (monitor_poll (monitor_poll s uuid (some v) now).1 uuid (some w) later).2
          = MonitorOutcome.finished)) ∧
    (statusOf (monitor_poll s uuid none now).1 uuid = some "error" ∧
      (viewMeta (monitor_poll s uuid none now).1 (toView t)).map Meta.errorDetail
        = some (some "get_robot_state_failed") ∧
      eventFlag (monitor_poll s uuid none now).1 t.eventRef = true ∧
      (monitor_poll s uuid none now).2 = MonitorOutcome.finished) := by
  constructor
  · intro v hv
    refine ⟨?_, ?_, ?_, ?_, ?_⟩
    · simp [monitor_poll, get_robot_state, hc, hv, ht, hrun, statusOf,
        alookup_aupdate_self]
    · simp [monitor_poll, get_robot_state, hc, hv, ht, hrun,
        alookup_aupdate_self]
    · simp [monitor_poll, get_robot_state, hc, hv, ht, hrun, eventFlag,
        getElem?_set_self _ _ _ hev]
    · simp [monitor_poll, get_robot_state, hc, hv, ht, hrun]
    · intro w later hw
      simp [monitor_poll, get_robot_state, hc, hv, hw, ht, hrun,
        alookup_aupdate_self]
  · refine ⟨?_, ?_, ?_, ?_⟩
    · simp [monitor_poll, get_robot_state, hc, ht, statusOf,
        alookup_aupdate_self]
    · simp [monitor_poll, get_robot_state, hc, ht, viewMeta, toView,
        setMetaError_read _ _ _ hm]
    · simp [monitor_poll, get_robot_state, hc, ht, eventFlag,
        getElem?_set_self _ _ _ hev]
    · simp [monitor_poll, get_robot_state, hc, ht]

/-- C2 witness: on the concrete running task 0 of `sMove`, a poll seeing robot
state 1 completes the task and a poll whose state query fails marks it
`error`. -/
theorem monitor_poll_running_spec_witness :
    statusOf (monitor_poll sMove 0 (some 1) 300).1 0 = some "completed" ∧
    statusOf (monitor_poll sMove 0 none 300).1 0 = some "error" :=
  ⟨((monitor_poll_running_spec sMove 0 tMove 300 (by decide) (by decide)
      (by decide) (by decide) (by decide)).1 1 (by decide)).1,
   (monitor_poll_running_spec sMove 0 tMove 300 (by decide) (by decide)
      (by decide) (by decide) (by decide)).2.1⟩

/-- C3 witness: cancelling the concrete running task 0 of `sMove` aborts it
when the stop succeeds, and fails with "Cancel failed" leaving it running
when the stop fails. -/
theorem cancel_task_running_spec_witness :
    statusOf (cancel_task sMove 0 true 200).1 0 = some "aborted" ∧
    (cancel_task sMove 0 false 200).2 = Except.error "Cancel failed" ∧
    statusOf (cancel_task sMove 0 false 200).1 0 = some "running" :=
  ⟨(cancel_task_running_spec sMove 0 tMove 200 (by decide) (by decide)
      (by decide) (by decide)).1.2.1,
   (cancel_task_running_spec sMove 0 tMove 200 (by decide) (by decide)
      (by decide) (by decide)).2.1,
   (cancel_task_running_spec sMove 0 tMove 200 (by decide) (by decide)
      (by decide) (by decide)).2.2.2.2⟩

/-- C5: on a connected controller whose registry only holds ids already handed
out by the uuid source, a successful `move_joint_positions` with a 7-element
joint vector returns the freshly generated task id — an id absent from the
registry beforehand, hence never previously issued — and `get_task` on that id
immediately shows a `running` task; with a joint vector of any other length
the call raises `InvalidArgument`-style (`RobotError`) and the whole state is
unchanged, so no SDK command was issued, regardless of the SDK oracle. -/
theorem move_joint_positions_spec (s : CState) (joints : List Int)
    (v a : Int) (now : Nat)
    (hc : s.connected = true) (hf : TasksFresh s) :
    (joints.length = 7 →
      alookup s.tasks s.uuid_src = none ∧
      (move_joint_positions s joints v a true now).2
        = Except.ok ("moving", s.task_counter + 1, s.uuid_src, "joint") ∧
      get_task (move_joint_positions s joints v a true now).1 s.uuid_src
        = Except.ok { task_id := s.uuid_src, type := "joint_move",
                      status := "running", started_at := now,
                      ip := s.ip_address, metaRef := s.metaHeap.length,
                      completed_at := none, aborted_at := none }) ∧
    (joints.length ≠ 7 → ∀ mOk,
      move_joint_positions s joints v a mOk now
        = (s, Except.error "move_joint_positions expects 7 joint values.")) := by
  constructor
  · intro h7
    have h0 : alookup s.tasks s.uuid_src = none := hf.lookup_none
    refine ⟨h0, ?_, ?_⟩
    · simp [move_joint_positions, hc, h7, next_task_id, uuid4hex]
    · simp [move_joint_positions, hc, h7, next_task_id, uuid4hex,
        register_task, start_task_monitor, get_task, aset, h0,
        alookup_append_of_none _ _ _ h0, toView]
  · intro hne mOk
    simp [move_joint_positions, hc, hne]

/-- C5 witness: on the connected empty controller `sConn`, a 7-joint move
succeeds, id 0 was never issued before and immediately shows `running`, while
a 3-joint move is rejected with the state untouched. -/
theorem move_joint_positions_spec_witness :
    alookup sConn.tasks sConn.uuid_src = none ∧
    (move_joint_positions sConn [0, 0, 0, 0, 0, 0, 0] 1 1 true 100).2
      = Except.ok ("moving", sConn.task_counter + 1, sConn.uuid_src, "joint") ∧
    get_task (move_joint_positions sConn [0, 0, 0, 0, 0, 0, 0] 1 1 true 100).1
        sConn.uuid_src
      = Except.ok { task_id := sConn.uuid_src, type := "joint_move",
                    status := "running", started_at := 100,
                    ip := sConn.ip_address, metaRef := sConn.metaHeap.length,
                    completed_at := none, aborted_at := none } ∧
    move_joint_positions sConn [0, 0, 0] 1 1 false 100
      = (sConn, Except.error "move_joint_positions expects 7 joint values.") :=
  have hf : TasksFresh sConn := by
    intro k hk
    rw [show sConn.tasks = [] by decide] at hk
    simp [alookup] at hk
  ⟨((move_joint_positions_spec sConn [0, 0, 0, 0, 0, 0, 0] 1 1 100
      (by decide) hf).1 rfl).1,
   ((move_joint_positions_spec sConn [0, 0, 0, 0, 0, 0, 0] 1 1 100
      (by decide) hf).1 rfl).2.1,
   ((move_joint_positions_spec sConn [0, 0, 0, 0, 0, 0, 0] 1 1 100
      (by decide) hf).1 rfl).2.2,
   (move_joint_positions_spec sConn [0, 0, 0] 1 1 100
      (by decide) hf).2 (by decide) false⟩

theorem issueWaypoints_frame (path : List (List Int)) (s : CState)
    (oks : Nat → Bool) (idx : Nat) :
    (issueWaypoints s path oks idx).1.tasks = s.tasks ∧
    (issueWaypoints s path oks idx).1.monitors = s.monitors := by
  induction path generalizing s idx with
  | nil => exact ⟨rfl, rfl⟩
  | cons w rest ih =>
    by_cases h7 : w.length = 7
    · by_cases hok : oks idx
      · have := ih { s with
          log := s.log ++ [Cmd.moveJToTarget w (s.ip_address.getD "")] } (idx + 1)
        simpa [issueWaypoints, h7, hok] using this
      · simp [issueWaypoints, h7, hok]
    · simp [issueWaypoints, h7]

/-- C6: `execute_joint_sequence` on an empty waypoint list raises `EmptyPath`
("Path is empty.") with the whole state untouched, so before any SDK command;
waypoint commands are issued sequentially in list order, and whenever the call
raises — in particular when some waypoint's command fails — no task is
registered and no monitor is started. The concrete two-waypoint conjunct
shows both commands issued in order, the failure surfacing immediately, and
the registry and monitor set untouched. -/
theorem execute_joint_sequence_spec (s : CState) (v a : Int) (now : Nat)
    (hc : s.connected = true) :
    (∀ oks, execute_joint_sequence s [] v a oks now
        = (s, Except.error "Path is empty.")) ∧
    (∀ path oks s' e,
      execute_joint_sequence s path v a oks now = (s', Except.error e) →
      s'.tasks = s.tasks ∧ s'.monitors = s.monitors) ∧
    (∀ w0 w1 : List Int, w0.length = 7 → w1.length = 7 →
      ∀ oks : Nat → Bool, oks 0 = true → oks 1 = false →
      (execute_joint_sequence s [w0, w1] v a oks now).1.log
        = s.log ++ [Cmd.moveJToTarget w0 (s.ip_address.getD ""),
                    Cmd.moveJToTarget w1 (s.ip_address.getD "")] ∧
      (execute_joint_sequence s [w0, w1] v a oks now).2
        = Except.error "moveJToTarget failed at waypoint #1." ∧
      (execute_joint_sequence s [w0, w1] v a oks now).1.tasks = s.tasks ∧
      (execute_joint_sequence s [w0, w1] v a oks now).1.monitors = s.monitors) := by
  refine ⟨?_, ?_, ?_⟩
  · intro oks
    simp [execute_joint_sequence, hc]
  · intro path oks s' e heq
    by_cases hp : path.isEmpty
    · simp [execute_joint_sequence, hc, hp] at heq
      rw [← heq.1]
      exact ⟨rfl, rfl⟩
    · simp only [execute_joint_sequence, next_task_id, uuid4hex] at heq
      rw [if_pos hc, if_neg hp] at heq
      rcases hiw : issueWaypoints
          { s with task_counter := s.task_counter + 1,
                   uuid_src := s.uuid_src + 1 } path oks 0 with ⟨s3, res⟩
      have hframe := issueWaypoints_frame path
          { s with task_counter := s.task_counter + 1,
                   uuid_src := s.uuid_src + 1 } oks 0
      rw [hiw] at heq hframe
      cases res with
      | error e0 =>
        simp at heq
        obtain ⟨rfl, rfl⟩ := heq
        simpa using hframe
      | ok u =>
        simp [register_task, start_task_monitor] at heq
  · intro w0 w1 h0 h1 oks hok0 hok1
    simp [execute_joint_sequence, hc, next_task_id, uuid4hex, issueWaypoints,
      h0, h1, hok0, hok1]
    decide

/-- C6 witness: on the connected controller `sConn`, the empty sequence raises
"Path is empty." leaving the state untouched, and a two-waypoint sequence
whose second command fails raises immediately. -/
theorem execute_joint_sequence_spec_witness :
    execute_joint_sequence sConn [] 1 1 (fun _ => true) 0
      = (sConn, Except.error "Path is empty.") ∧
    (execute_joint_sequence sConn
        [[0, 0, 0, 0, 0, 0, 0], [1, 1, 1, 1, 1, 1, 1]] 1 1
        (fun i => decide (i = 0)) 0).2
      = Except.error "moveJToTarget failed at waypoint #1." :=
  ⟨(execute_joint_sequence_spec sConn 1 1 0 (by decide)).1 (fun _ => true),
   ((execute_joint_sequence_spec sConn 1 1 0 (by decide)).2.2
      [0, 0, 0, 0, 0, 0, 0] [1, 1, 1, 1, 1, 1, 1] rfl rfl
      (fun i => decide (i = 0)) (by decide) (by decide)).2.1⟩

end Diana
